import Mathlib

/-!
# ipfs-api: the orchestration script of `main.go`

A shallow embedding of `main.go`.  The script drives an external IPFS node
through the `go-ipfs-api` client (`*shell.Shell`): it adds a text, reads it
back, downloads it, publishes an IPNS record and resolves that record.

The client is an external collaborator.  Its five methods used by the script
are taken as an arbitrary behaviour over an abstract node state `σ` (which
stands for everything outside the script: the node, the network, the local
file system).  Every method call made through the handle is written to a
transcript, so that statements about "which calls were made" are statements
about that transcript.

Go values:
* a Go `string` and a `[]byte` are both byte sequences and the conversions
  between them (`strings.NewReader(text)`, `string(bytes)`) copy the bytes
  unchanged; both are embedded as `String`;
* a Go `error` is embedded as its dynamic kind together with the text that
  its `Error()` method returns; the `nil` error is `none`;
* a `(value, error)` result of a client method is an `Except`; the result of
  `readFile`, whose first component is a pointer that `main` dereferences, is
  kept as the Go pair of a nilable pointer and a nilable error;
* `time.Duration` is a count of nanoseconds (`int64`), embedded as `Int`.
-/

namespace IpfsApi

/-! ## Go values -/

/-- Dynamic kind of a Go `error` value.  The first four are the error kinds
that the specification names for the Node Client boundary; `fmtError` is the
kind of a value built by `fmt.Errorf` with a format that has no wrapping verb. -/
inductive ErrKind where
  | TransportError
  | NotFoundError
  | FilesystemError
  | AuthorizationError
  | fmtError
  deriving DecidableEq

/-- A non-nil Go `error`: its dynamic kind and the text of `Error()`. -/
structure GoError where
  kind : ErrKind
  msg : String
  deriving DecidableEq

/-- The method `err.Error()`. -/
def GoError.Error (err : GoError) : String := err.msg

/-- The call `fmt.Errorf(format, ...)` for a format without `%w`: a fresh
error value whose text is the formatted string. -/
def Errorf (formatted : String) : GoError := ⟨ErrKind.fmtError, formatted⟩

/-- The call `fmt.Sprintf("/ipfs/%s", cid)`. -/
def SprintfIpfs (cid : String) : String := "/ipfs/" ++ cid

/-- The text `fmt.Println(args...)` writes, without the final newline:
the operands separated by single spaces. -/
def Sprintln : List String → String
  | [] => ""
  | [a] => a
  | a :: b :: rest => a ++ " " ++ Sprintln (b :: rest)

/-- Go `time.Duration`: nanoseconds. -/
abbrev Duration := Int

def Nanosecond : Duration := 1
def Microsecond : Duration := 1000 * Nanosecond
def Millisecond : Duration := 1000 * Microsecond
def Second : Duration := 1000 * Millisecond
def Minute : Duration := 60 * Second
def Hour : Duration := 60 * Minute

/-- An `io.ReadCloser` handed out by `Cat`: the outcome that consuming the
stream to its end will have, either all of its bytes or a read error. -/
structure Reader where
  stream : Except GoError String

/-- The call `io.ReadAll(reader)`. -/
def ReadAll (reader : Reader) : Except GoError String := reader.stream

/-- The struct `shell.PublishResponse`. -/
structure PublishResponse where
  Name : String
  Value : String

/-! ## Configuration constants -/

/-- The constant `YourLocalPath`. -/
def YourLocalPath : String := "~/Downloads"

/-- The constant `YourPublicKey`. -/
def YourPublicKey : String := ""

/-! ## The Node Client and the observable world -/

/-- Behaviour of the five `*shell.Shell` methods the script calls, over an
abstract node state. -/
structure Shell (σ : Type) where
  Add : String → σ → Except GoError String × σ
  Cat : String → σ → Except GoError Reader × σ
  Get : String → String → σ → Option GoError × σ
  PublishWithDetails :
    String → String → Duration → Duration → Bool → σ → Except GoError PublishResponse × σ
  Resolve : String → σ → Except GoError String × σ

/-- One entry of the transcript: a method call with its arguments and what it
returned. -/
inductive Event where
  | Add (text : String) (res : Except GoError String)
  | Cat (path : String) (res : Except GoError Reader)
  | Get (hash outdir : String) (res : Option GoError)
  | PublishWithDetails (contentHash key : String) (lifetime ttl : Duration) (resolve : Bool)
      (res : Except GoError PublishResponse)
  | Resolve (id : String) (res : Except GoError String)

/-- The five pipeline operations. -/
inductive Op where
  | add
  | read
  | download
  | publish
  | resolve
  deriving DecidableEq

/-- The pipeline order. -/
def pipeline : List Op := [Op.add, Op.read, Op.download, Op.publish, Op.resolve]

/-- Which operation a transcript entry belongs to. -/
def Event.op : Event → Op
  | Event.Add _ _ => Op.add
  | Event.Cat _ _ => Op.read
  | Event.Get _ _ _ => Op.download
  | Event.PublishWithDetails _ _ _ _ _ _ => Op.publish
  | Event.Resolve _ _ => Op.resolve

/-- The error with which the operation of a transcript entry failed, if it
did.  The read operation is the fetch together with the consumption of the
stream it hands out, so it fails when either does. -/
def Event.failure : Event → Option GoError
  | Event.Add _ (Except.error e) => some e
  | Event.Add _ (Except.ok _) => none
  | Event.Cat _ (Except.error e) => some e
  | Event.Cat _ (Except.ok reader) =>
    match ReadAll reader with
    | Except.error e => some e
    | Except.ok _ => none
  | Event.Get _ _ r => r
  | Event.PublishWithDetails _ _ _ _ _ (Except.error e) => some e
  | Event.PublishWithDetails _ _ _ _ _ (Except.ok _) => none
  | Event.Resolve _ (Except.error e) => some e
  | Event.Resolve _ (Except.ok _) => none

/-- Everything a run can change: the node state, the transcript of client
calls, the lines written to the console, and whether a nil pointer was
dereferenced. -/
structure World (σ : Type) where
  node : σ
  log : List Event
  console : List String
  nilDeref : Bool

/-- The world at the start of a run. -/
def World.init {σ : Type} (s : σ) : World σ := ⟨s, [], [], false⟩

/-- Book-keeping of a client call: new node state, one more transcript entry. -/
def World.record {σ : Type} (w : World σ) (s : σ) (ev : Event) : World σ :=
  { w with node := s, log := w.log ++ [ev] }

/-- The call `fmt.Println(args...)`. -/
def Println {σ : Type} (args : List String) (w : World σ) : World σ :=
  { w with console := w.console ++ [Sprintln args] }

/-- The call `sh.Add(r)` for a reader `r` over `text`. -/
def Shell.callAdd {σ : Type} (sh : Shell σ) (text : String) (w : World σ) :
    Except GoError String × World σ :=
  ((sh.Add text w.node).1, w.record (sh.Add text w.node).2 (Event.Add text (sh.Add text w.node).1))

/-- The call `sh.Cat(path)`. -/
def Shell.callCat {σ : Type} (sh : Shell σ) (path : String) (w : World σ) :
    Except GoError Reader × World σ :=
  ((sh.Cat path w.node).1, w.record (sh.Cat path w.node).2 (Event.Cat path (sh.Cat path w.node).1))

/-- The call `sh.Get(hash, outdir)`. -/
def Shell.callGet {σ : Type} (sh : Shell σ) (hash outdir : String) (w : World σ) :
    Option GoError × World σ :=
  ((sh.Get hash outdir w.node).1,
    w.record (sh.Get hash outdir w.node).2 (Event.Get hash outdir (sh.Get hash outdir w.node).1))

/-- The call `sh.PublishWithDetails(contentHash, key, lifetime, ttl, resolve)`. -/
def Shell.callPublishWithDetails {σ : Type} (sh : Shell σ) (contentHash key : String)
    (lifetime ttl : Duration) (resolve : Bool) (w : World σ) :
    Except GoError PublishResponse × World σ :=
  ((sh.PublishWithDetails contentHash key lifetime ttl resolve w.node).1,
    w.record (sh.PublishWithDetails contentHash key lifetime ttl resolve w.node).2
      (Event.PublishWithDetails contentHash key lifetime ttl resolve
        (sh.PublishWithDetails contentHash key lifetime ttl resolve w.node).1))

/-- The call `sh.Resolve(id)`. -/
def Shell.callResolve {σ : Type} (sh : Shell σ) (id : String) (w : World σ) :
    Except GoError String × World σ :=
  ((sh.Resolve id w.node).1,
    w.record (sh.Resolve id w.node).2 (Event.Resolve id (sh.Resolve id w.node).1))

/-! ## The script -/

/-- The function `addFile`. -/
def addFile {σ : Type} (sh : Shell σ) (text : String) (w : World σ) :
    Except GoError String × World σ :=
  sh.callAdd text w

/-- The function `readFile`: the pair of the text pointer and the error. -/
def readFile {σ : Type} (sh : Shell σ) (cid : String) (w : World σ) :
    (Option String × Option GoError) × World σ :=
  match sh.callCat (SprintfIpfs cid) w with
  | (Except.error err, w1) =>
    ((none, some (Errorf ("error reading the file: " ++ err.Error))), w1)
  | (Except.ok reader, w1) =>
    match ReadAll reader with
    | Except.error err =>
      ((none, some (Errorf ("error reading the bytes: " ++ err.Error))), w1)
    | Except.ok bytes => ((some bytes, none), w1)

/-- The function `downloadFile`. -/
def downloadFile {σ : Type} (sh : Shell σ) (cid : String) (w : World σ) :
    Option GoError × World σ :=
  sh.callGet cid YourLocalPath w

/-- The function `addToIPNS`. -/
def addToIPNS {σ : Type} (sh : Shell σ) (cid : String) (w : World σ) :
    Option GoError × World σ :=
  let lifetime : Duration := 50 * Hour
  let ttl : Duration := 1 * Microsecond
  match sh.callPublishWithDetails cid YourPublicKey lifetime ttl true w with
  | (Except.error err, w1) => (some err, w1)
  | (Except.ok _, w1) => (none, w1)

/-- The function `resolveIPNS`. -/
def resolveIPNS {σ : Type} (sh : Shell σ) (w : World σ) : Except GoError String × World σ :=
  sh.callResolve YourPublicKey w

/-- Modelled from the spec: `performChecks` is called by `main` but its body is
not part of `main.go`.  The spec lists add, read, download, publish-name and
resolve-name as the operations of a run, so the pre-flight check is taken to
make none of those five calls; whether it passes, what it does to the node
state and what it prints are left arbitrary. -/
structure Checks (σ : Type) where
  result : σ → Option GoError
  node : σ → σ
  output : σ → List String

/-- The call `performChecks(sh)`. -/
def performChecks {σ : Type} (chk : Checks σ) (w : World σ) : Option GoError × World σ :=
  (chk.result w.node, { w with node := chk.node w.node, console := w.console ++ chk.output w.node })

/-- Modelled from the spec: `separator` is called by `main` but its body is not
part of `main.go`.  It takes no argument, so it has no client handle; the lines
it prints are a parameter `sep`. -/
def separator {σ : Type} (sep : List String) (w : World σ) : World σ :=
  { w with console := w.console ++ sep }

/-- The function `main`, run in a world `w0`. -/
def main {σ : Type} (sh : Shell σ) (chk : Checks σ) (sep : List String) (w0 : World σ) :
    World σ :=
  match performChecks chk w0 with
  | (some err, w) => Println [err.Error] w
  | (none, w) =>
  let w := Println ["Adding file to IPFS"] w
  match addFile sh "Hello from Launchpad!" w with
  | (Except.error err, w) => Println ["Error adding file to IPFS:", err.Error] w
  | (Except.ok cid, w) =>
  let w := Println ["File added with CID:", cid] w
  let w := separator sep w
  let w := Println ["Reading file"] w
  match readFile sh cid w with
  | ((_, some err), w) => Println ["Error reading the file:", err.Error] w
  | ((none, none), w) => { w with nilDeref := true }
  | ((some text, none), w) =>
  let w := Println ["Content of the file:", text] w
  let w := separator sep w
  let w := Println ["Downloading file"] w
  match downloadFile sh cid w with
  | (some err, w) => Println ["Error downloading file:", err.Error] w
  | (none, w) =>
  let w := Println ["File donwloaded"] w
  let w := separator sep w
  let w := Println ["Adding file to IPNS"] w
  match addToIPNS sh cid w with
  | (some err, w) => Println ["Error publishing to IPNS:", err.Error] w
  | (none, w) =>
  let w := Println ["File added to IPNS"] w
  let w := separator sep w
  let w := Println ["Resolving file in IPNS"] w
  match resolveIPNS sh w with
  | (Except.error err, w) => Println ["Error resolving IPNS:", err.Error] w
  | (Except.ok result, w) => Println ["IPNS is pointing to:", result] w

/-- One run of the program against node state `s`. -/
def run {σ : Type} (sh : Shell σ) (chk : Checks σ) (sep : List String) (s : σ) : World σ :=
  main sh chk sep (World.init s)


/-! ## Vocabulary of the statements -/

/-- The progress line `main` prints when it starts an operation. -/
def progressLine : Op → String
  | Op.add => "Adding file to IPFS"
  | Op.read => "Reading file"
  | Op.download => "Downloading file"
  | Op.publish => "Adding file to IPNS"
  | Op.resolve => "Resolving file in IPNS"

/-- Console lines of a completed add step. -/
def addLines (cid : String) (sep : List String) : List String :=
  ["Adding file to IPFS", Sprintln ["File added with CID:", cid]] ++ sep

/-- Console lines of a completed read step. -/
def readLines (text : String) (sep : List String) : List String :=
  ["Reading file", Sprintln ["Content of the file:", text]] ++ sep

/-- Console lines of a completed download step. -/
def downloadLines (sep : List String) : List String :=
  ["Downloading file", "File donwloaded"] ++ sep

/-- Console lines of a completed publish step. -/
def publishLines (sep : List String) : List String :=
  ["Adding file to IPNS", "File added to IPNS"] ++ sep

/-- A transcript is the pipeline cut at its first failure: it starts with add,
follows the pipeline order without repetition, no entry but the last one
failed, and it is shorter than the pipeline only when its last entry failed. -/
def StopsAtFirstFailure (log : List Event) : Prop :=
  log.head?.map Event.op = some Op.add ∧
  log.map Event.op <+: pipeline ∧
  (log.map Event.op).Nodup ∧
  (∀ ev ∈ log.dropLast, ev.failure = none) ∧
  (log.length < pipeline.length → ∃ ev e, log.getLast? = some ev ∧ ev.failure = some e)

/-- Every publish call of the transcript carries the cid that the add call at
the head of the transcript returned, and that cid is not the empty string. -/
def PublishesAddedNonEmptyCid (log : List Event) : Prop :=
  ∀ (contentHash key : String) (lifetime ttl : Duration) (resolve : Bool)
    (res : Except GoError PublishResponse),
    Event.PublishWithDetails contentHash key lifetime ttl resolve res ∈ log →
    log.head? = some (Event.Add "Hello from Launchpad!" (Except.ok contentHash)) ∧
    contentHash ≠ ""

/-- The console shows a progress line for each of the five operations, in
pipeline order. -/
def ProgressForAllSteps (console : List String) : Prop :=
  List.Sublist (pipeline.map progressLine) console

/-- A client that stores content by identity: `Add` returns a cid, and `Cat` of
`/ipfs/<cid>` right afterwards hands out a stream of exactly the added bytes. -/
def StoresByIdentity {σ : Type} (sh : Shell σ) : Prop :=
  ∀ (text : String) (s : σ), ∃ cid reader,
    (sh.Add text s).1 = Except.ok cid ∧
    (sh.Cat ("/ipfs/" ++ cid) (sh.Add text s).2).1 = Except.ok reader ∧
    ReadAll reader = Except.ok text

/-- A client that keeps, per key, the last published cid and returns it on
resolve. -/
def StoresLastPublished {σ : Type} (sh : Shell σ) : Prop :=
  ∀ (cid key : String) (lifetime ttl : Duration) (resolve : Bool) (s : σ) (pr : PublishResponse),
    (sh.PublishWithDetails cid key lifetime ttl resolve s).1 = Except.ok pr →
    (sh.Resolve key (sh.PublishWithDetails cid key lifetime ttl resolve s).2).1 = Except.ok cid

/-! ## An in-memory client -/

/-- State of the in-memory node: stored blocks `(cid, bytes)` and naming
records `(key, cid)`, newest first. -/
structure MockNode where
  blocks : List (String × String)
  names : List (String × String)

/-- First value stored under a key. -/
def lookup (k : String) : List (String × String) → Option String
  | [] => none
  | (k1, v) :: rest => if k1 = k then some v else lookup k rest

/-- The error of the in-memory node for an unknown cid or key. -/
def notFound : GoError := ⟨ErrKind.NotFoundError, "not found"⟩

/-- The in-memory client. -/
def mockShell : Shell MockNode where
  Add := fun text s =>
    (Except.ok ("bafy-" ++ text), { s with blocks := ("/ipfs/bafy-" ++ text, text) :: s.blocks })
  Cat := fun path s =>
    match lookup path s.blocks with
    | some bytes => (Except.ok ⟨Except.ok bytes⟩, s)
    | none => (Except.error notFound, s)
  Get := fun hash _ s =>
    match lookup ("/ipfs/" ++ hash) s.blocks with
    | some _ => (none, s)
    | none => (some notFound, s)
  PublishWithDetails := fun cid key _ _ _ s =>
    (Except.ok ⟨key, cid⟩, { s with names := (key, cid) :: s.names })
  Resolve := fun key s =>
    match lookup key s.names with
    | some cid => (Except.ok cid, s)
    | none => (Except.error notFound, s)

/-- The in-memory client with an unreachable add endpoint. -/
def mockShellAddDown (e : GoError) : Shell MockNode :=
  { mockShell with Add := fun _ s => (Except.error e, s) }

/-- The in-memory client whose fetched streams break while being read. -/
def mockShellBrokenStream (e : GoError) : Shell MockNode :=
  { mockShell with Cat := fun _ s => (Except.ok ⟨Except.error e⟩, s) }

/-- The in-memory client whose add endpoint answers with an empty cid. -/
def mockShellEmptyCid : Shell MockNode :=
  { mockShell with
    Add := fun text s => (Except.ok "", { s with blocks := ("/ipfs/", text) :: s.blocks }) }

/-- The in-memory client with a failing download endpoint. -/
def mockShellGetDown (e : GoError) : Shell MockNode :=
  { mockShell with Get := fun _ _ s => (some e, s) }

/-- The empty in-memory node. -/
def emptyNode : MockNode := ⟨[], []⟩

/-- A pre-flight check that passes silently. -/
def passingChecks : Checks MockNode := ⟨fun _ => none, fun s => s, fun _ => []⟩

/-- A pre-flight check that fails. -/
def failingChecks : Checks MockNode :=
  ⟨fun _ => some (Errorf "pre-flight check failed"), fun s => s, fun _ => []⟩

/-- The possible final transcripts and consoles of a run, by the place where
it stopped. -/
def RunShape (sep out : List String) (res0 : Option GoError) (log : List Event)
    (console : List String) : Prop :=
  (∃ e, res0 = some e ∧ log = [] ∧ console = out ++ [e.Error]) ∨
  (∃ e, res0 = none ∧
    log = [Event.Add "Hello from Launchpad!" (Except.error e)] ∧
    console = out ++ ["Adding file to IPFS", Sprintln ["Error adding file to IPFS:", e.Error]]) ∨
  (∃ cid rc e pre, res0 = none ∧
    Event.failure (Event.Cat ("/ipfs/" ++ cid) rc) = some e ∧
    log = [Event.Add "Hello from Launchpad!" (Except.ok cid), Event.Cat ("/ipfs/" ++ cid) rc] ∧
    console = out ++ addLines cid sep ++
      ["Reading file", Sprintln ["Error reading the file:", pre ++ e.Error]]) ∨
  (∃ cid reader text e, res0 = none ∧ ReadAll reader = Except.ok text ∧
    log = [Event.Add "Hello from Launchpad!" (Except.ok cid),
      Event.Cat ("/ipfs/" ++ cid) (Except.ok reader),
      Event.Get cid YourLocalPath (some e)] ∧
    console = out ++ addLines cid sep ++ readLines text sep ++
      ["Downloading file", Sprintln ["Error downloading file:", e.Error]]) ∨
  (∃ cid reader text e, res0 = none ∧ ReadAll reader = Except.ok text ∧
    log = [Event.Add "Hello from Launchpad!" (Except.ok cid),
      Event.Cat ("/ipfs/" ++ cid) (Except.ok reader),
      Event.Get cid YourLocalPath none,
      Event.PublishWithDetails cid YourPublicKey 180000000000000 1000 true (Except.error e)] ∧
    console = out ++ addLines cid sep ++ readLines text sep ++ downloadLines sep ++
      ["Adding file to IPNS", Sprintln ["Error publishing to IPNS:", e.Error]]) ∨
  (∃ cid reader text pr e, res0 = none ∧ ReadAll reader = Except.ok text ∧
    log = [Event.Add "Hello from Launchpad!" (Except.ok cid),
      Event.Cat ("/ipfs/" ++ cid) (Except.ok reader),
      Event.Get cid YourLocalPath none,
      Event.PublishWithDetails cid YourPublicKey 180000000000000 1000 true (Except.ok pr),
      Event.Resolve YourPublicKey (Except.error e)] ∧
    console = out ++ addLines cid sep ++ readLines text sep ++ downloadLines sep ++
      publishLines sep ++ ["Resolving file in IPNS", Sprintln ["Error resolving IPNS:", e.Error]]) ∨
  (∃ cid reader text pr result, res0 = none ∧ ReadAll reader = Except.ok text ∧
    log = [Event.Add "Hello from Launchpad!" (Except.ok cid),
      Event.Cat ("/ipfs/" ++ cid) (Except.ok reader),
      Event.Get cid YourLocalPath none,
      Event.PublishWithDetails cid YourPublicKey 180000000000000 1000 true (Except.ok pr),
      Event.Resolve YourPublicKey (Except.ok result)] ∧
    console = out ++ addLines cid sep ++ readLines text sep ++ downloadLines sep ++
      publishLines sep ++ ["Resolving file in IPNS", Sprintln ["IPNS is pointing to:", result]])

/-! ## Shape of a run -/

theorem run_shape {σ : Type} (sh : Shell σ) (chk : Checks σ) (sep : List String) (s : σ) :
    (run sh chk sep s).nilDeref = false ∧
    RunShape sep (chk.output s) (chk.result s) (run sh chk sep s).log
      (run sh chk sep s).console := by
  unfold RunShape run main performChecks
  simp only [World.init]
  cases h0 : chk.result s with
  | some e0 => simp [Println, Sprintln]
  | none =>
    simp only [addFile, Shell.callAdd, Println, World.record]
    generalize hA : sh.Add "Hello from Launchpad!" (chk.node s) = rA
    obtain ⟨a, sA⟩ := rA
    cases a with
    | error e => simp [Sprintln]
    | ok cid =>
      simp only [separator, readFile, Shell.callCat, World.record, SprintfIpfs]
      generalize hC : sh.Cat ("/ipfs/" ++ cid) sA = rC
      obtain ⟨c, sC⟩ := rC
      cases c with
      | error e =>
        refine ⟨rfl, Or.inr (Or.inr (Or.inl
          ⟨cid, Except.error e, e, "error reading the file: ", ?_⟩))⟩
        simp [addLines, Sprintln, Event.failure, Errorf, GoError.Error]
      | ok reader =>
        cases hR : ReadAll reader with
        | error e =>
          refine ⟨by simp [hR], Or.inr (Or.inr (Or.inl
            ⟨cid, Except.ok reader, e, "error reading the bytes: ", ?_⟩))⟩
          simp [addLines, Sprintln, Event.failure, Errorf, GoError.Error, hR]
        | ok text =>
          simp only [hR, downloadFile, Shell.callGet, World.record]
          generalize hG : sh.Get cid YourLocalPath sC = rG
          obtain ⟨g, sG⟩ := rG
          cases g with
          | some e =>
            refine ⟨rfl, Or.inr (Or.inr (Or.inr (Or.inl ⟨cid, reader, text, e, ?_⟩)))⟩
            simp [addLines, readLines, Sprintln, hR]
          | none =>
            simp only [addToIPNS, Shell.callPublishWithDetails, World.record]
            generalize hP : sh.PublishWithDetails cid YourPublicKey (50 * Hour) (1 * Microsecond)
              true sG = rP
            obtain ⟨p, sP⟩ := rP
            have hl : (50 * Hour : Duration) = 180000000000000 := by decide
            have ht : (1 * Microsecond : Duration) = 1000 := by decide
            cases p with
            | error e =>
              refine ⟨rfl, Or.inr (Or.inr (Or.inr (Or.inr (Or.inl
                ⟨cid, reader, text, e, ?_⟩))))⟩
              simp [addLines, readLines, downloadLines, Sprintln, hR, hl, ht]
            | ok pr =>
              simp only [resolveIPNS, Shell.callResolve, World.record]
              generalize hV : sh.Resolve YourPublicKey sP = rV
              obtain ⟨v, sV⟩ := rV
              cases v with
              | error e =>
                refine ⟨rfl, Or.inr (Or.inr (Or.inr (Or.inr (Or.inr (Or.inl
                  ⟨cid, reader, text, pr, e, ?_⟩)))))⟩
                simp [addLines, readLines, downloadLines, publishLines, Sprintln, hR, hl, ht]
              | ok result =>
                refine ⟨rfl, Or.inr (Or.inr (Or.inr (Or.inr (Or.inr (Or.inr
                  ⟨cid, reader, text, pr, result, ?_⟩)))))⟩
                simp [addLines, readLines, downloadLines, publishLines, Sprintln, hR, hl, ht]


/-- The transcript entries of a run carry the answers of the client itself,
each asked in the node state the previous call left behind. -/
theorem run_answers {σ : Type} (sh : Shell σ) (chk : Checks σ) (sep : List String) (s : σ)
    (hchk : chk.result s = none) (cid : String)
    (hadd : (sh.Add "Hello from Launchpad!" (chk.node s)).1 = Except.ok cid) :
    (run sh chk sep s).log[0]? = some (Event.Add "Hello from Launchpad!" (Except.ok cid)) ∧
    (run sh chk sep s).log[1]? = some (Event.Cat ("/ipfs/" ++ cid)
      (sh.Cat ("/ipfs/" ++ cid) (sh.Add "Hello from Launchpad!" (chk.node s)).2).1) ∧
    ∀ reader text,
      (sh.Cat ("/ipfs/" ++ cid) (sh.Add "Hello from Launchpad!" (chk.node s)).2).1 =
        Except.ok reader →
      ReadAll reader = Except.ok text →
      (run sh chk sep s).log[2]? = some (Event.Get cid YourLocalPath
        (sh.Get cid YourLocalPath
          (sh.Cat ("/ipfs/" ++ cid) (sh.Add "Hello from Launchpad!" (chk.node s)).2).2).1) ∧
      ((sh.Get cid YourLocalPath
          (sh.Cat ("/ipfs/" ++ cid) (sh.Add "Hello from Launchpad!" (chk.node s)).2).2).1 =
          none →
        (run sh chk sep s).log[3]? = some (Event.PublishWithDetails cid YourPublicKey
          180000000000000 1000 true
          (sh.PublishWithDetails cid YourPublicKey 180000000000000 1000 true
            (sh.Get cid YourLocalPath
              (sh.Cat ("/ipfs/" ++ cid)
                (sh.Add "Hello from Launchpad!" (chk.node s)).2).2).2).1)) := by
  have hl : (50 * Hour : Duration) = 180000000000000 := by decide
  have ht : (1 * Microsecond : Duration) = 1000 := by decide
  revert hadd
  unfold run main performChecks
  simp only [World.init, hchk]
  simp only [addFile, Shell.callAdd, Println, World.record]
  generalize hA : sh.Add "Hello from Launchpad!" (chk.node s) = rA
  obtain ⟨a, sA⟩ := rA
  intro hadd
  cases hadd
  simp only [separator, readFile, Shell.callCat, World.record, SprintfIpfs]
  generalize hC : sh.Cat ("/ipfs/" ++ cid) sA = rC
  obtain ⟨c, sC⟩ := rC
  cases c with
  | error e => simp
  | ok reader =>
    cases hR : ReadAll reader with
    | error e =>
      refine ⟨by simp [hR], by simp [hR], ?_⟩
      intro r1 t1 h1 h2
      cases h1
      rw [hR] at h2
      cases h2
    | ok text =>
      simp only [hR, downloadFile, Shell.callGet, World.record]
      generalize hG : sh.Get cid YourLocalPath sC = rG
      obtain ⟨g, sG⟩ := rG
      cases g with
      | some e => simp
      | none =>
        simp only [addToIPNS, Shell.callPublishWithDetails, World.record, hl, ht]
        generalize hP : sh.PublishWithDetails cid YourPublicKey 180000000000000 1000
          true sG = rP
        obtain ⟨p, sP⟩ := rP
        cases p with
        | error e => simp
        | ok pr =>
          simp only [resolveIPNS, Shell.callResolve, World.record]
          generalize hV : sh.Resolve YourPublicKey sP = rV
          obtain ⟨v, sV⟩ := rV
          cases v with
          | error e => simp
          | ok result => simp

theorem run_checks_failed {σ : Type} (sh : Shell σ) (chk : Checks σ) (sep : List String)
    (s : σ) (e : GoError) (hchk : chk.result s = some e) : (run sh chk sep s).log = [] := by
  unfold run main performChecks
  simp [World.init, hchk, Println]

theorem run_add_failed {σ : Type} (sh : Shell σ) (chk : Checks σ) (sep : List String)
    (s : σ) (e : GoError) (hchk : chk.result s = none)
    (hadd : (sh.Add "Hello from Launchpad!" (chk.node s)).1 = Except.error e) :
    (run sh chk sep s).log = [Event.Add "Hello from Launchpad!" (Except.error e)] := by
  unfold run main performChecks
  simp [World.init, hchk, Println, addFile, Shell.callAdd, World.record, hadd]

/-- A transcript that starts with a successful add call comes from a run whose
pre-flight check passed and whose client answered the add with that cid. -/
theorem run_head_answer {σ : Type} (sh : Shell σ) (chk : Checks σ) (sep : List String)
    (s : σ) (text cid : String)
    (h : (run sh chk sep s).log.head? = some (Event.Add text (Except.ok cid))) :
    chk.result s = none ∧
    (sh.Add "Hello from Launchpad!" (chk.node s)).1 = Except.ok cid := by
  cases hchk : chk.result s with
  | some e => rw [run_checks_failed sh chk sep s e hchk] at h; simp at h
  | none =>
    refine ⟨rfl, ?_⟩
    cases hadd : (sh.Add "Hello from Launchpad!" (chk.node s)).1 with
    | error e => rw [run_add_failed sh chk sep s e hchk hadd] at h; simp at h
    | ok cid1 =>
      have h0 := (run_answers sh chk sep s hchk cid1 hadd).1
      rw [List.head?_eq_getElem?] at h
      rw [h0] at h
      simp at h
      rw [h.2]

theorem failure_Add_error (text : String) (e : GoError) :
    (Event.Add text (Except.error e)).failure = some e := rfl

theorem failure_Add_ok (text cid : String) :
    (Event.Add text (Except.ok cid)).failure = none := rfl

theorem failure_Cat_error (path : String) (e : GoError) :
    (Event.Cat path (Except.error e)).failure = some e := rfl

theorem failure_Cat_ok (path : String) (reader : Reader) :
    (Event.Cat path (Except.ok reader)).failure =
      (match ReadAll reader with
       | Except.error e => some e
       | Except.ok _ => none) := rfl

theorem failure_Get (hash outdir : String) (r : Option GoError) :
    (Event.Get hash outdir r).failure = r := rfl

theorem failure_Publish_error (cid key : String) (lifetime ttl : Duration) (resolve : Bool)
    (e : GoError) :
    (Event.PublishWithDetails cid key lifetime ttl resolve (Except.error e)).failure = some e :=
  rfl

theorem failure_Publish_ok (cid key : String) (lifetime ttl : Duration) (resolve : Bool)
    (pr : PublishResponse) :
    (Event.PublishWithDetails cid key lifetime ttl resolve (Except.ok pr)).failure = none :=
  rfl

theorem failure_Resolve_error (id : String) (e : GoError) :
    (Event.Resolve id (Except.error e)).failure = some e := rfl

theorem failure_Resolve_ok (id cid : String) :
    (Event.Resolve id (Except.ok cid)).failure = none := rfl


/-- The transcript of the complete run against the in-memory client. -/
theorem mockRun_log :
    (run mockShell passingChecks [] emptyNode).log =
      [Event.Add "Hello from Launchpad!" (Except.ok "bafy-Hello from Launchpad!"),
       Event.Cat "/ipfs/bafy-Hello from Launchpad!" (Except.ok ⟨Except.ok "Hello from Launchpad!"⟩),
       Event.Get "bafy-Hello from Launchpad!" "~/Downloads" none,
       Event.PublishWithDetails "bafy-Hello from Launchpad!" "" 180000000000000 1000 true
         (Except.ok ⟨"", "bafy-Hello from Launchpad!"⟩),
       Event.Resolve "" (Except.ok "bafy-Hello from Launchpad!")] := by
  rfl

/-- The console of the complete run against the in-memory client. -/
theorem mockRun_console :
    (run mockShell passingChecks ["-----"] emptyNode).console =
      ["Adding file to IPFS", "File added with CID: bafy-Hello from Launchpad!", "-----",
       "Reading file", "Content of the file: Hello from Launchpad!", "-----",
       "Downloading file", "File donwloaded", "-----",
       "Adding file to IPNS", "File added to IPNS", "-----",
       "Resolving file in IPNS", "IPNS is pointing to: bafy-Hello from Launchpad!"] := by
  rfl

theorem ends_with_error (con before : List String) (p label : String) (e : GoError)
    (h : con = before ++ [p, Sprintln [label, e.Error]]) :
    ∃ pre line, con = pre ++ [line ++ e.Error] ∧ p ∈ pre :=
  ⟨before ++ [p], label ++ " ", by simp [h, Sprintln], by simp⟩

theorem ends_with_wrapped_error (con before : List String) (p label mid : String) (e : GoError)
    (h : con = before ++ [p, Sprintln [label, mid ++ e.Error]]) :
    ∃ pre line, con = pre ++ [line ++ e.Error] ∧ p ∈ pre :=
  ⟨before ++ [p], label ++ " " ++ mid, by simp [h, Sprintln, String.append_assoc], by simp⟩

theorem progress_sublist (out sep : List String) (cid text last : String) :
    ProgressForAllSteps (out ++ addLines cid sep ++ readLines text sep ++ downloadLines sep ++
      publishLines sep ++ ["Resolving file in IPNS", last]) := by
  unfold ProgressForAllSteps
  have h1 : List.Sublist ["Adding file to IPFS"] (out ++ addLines cid sep) := by
    simp [addLines]
  have h2 : List.Sublist ["Reading file"] (readLines text sep) := by simp [readLines]
  have h3 : List.Sublist ["Downloading file"] (downloadLines sep) := by simp [downloadLines]
  have h4 : List.Sublist ["Adding file to IPNS"] (publishLines sep) := by simp [publishLines]
  have h5 : List.Sublist ["Resolving file in IPNS"] ["Resolving file in IPNS", last] := by simp
  exact ((((h1.append h2).append h3).append h4).append h5)

theorem mockShell_storesByIdentity : StoresByIdentity mockShell := by
  intro text s
  refine ⟨"bafy-" ++ text, ⟨Except.ok text⟩, rfl, ?_, rfl⟩
  have hp : "/ipfs/" ++ ("bafy-" ++ text) = "/ipfs/bafy-" ++ text := by
    rw [← String.append_assoc]; rfl
  simp [mockShell, lookup, hp]

theorem mockShell_storesLastPublished : StoresLastPublished mockShell := by
  intro cid key lifetime ttl resolve s pr _
  simp [mockShell, lookup]

theorem addToIPNS_eq {σ : Type} (sh : Shell σ) (cid : String) (w : World σ) :
    addToIPNS sh cid w =
      ((Event.PublishWithDetails cid YourPublicKey 180000000000000 1000 true
          (sh.PublishWithDetails cid YourPublicKey 180000000000000 1000 true w.node).1).failure,
        w.record (sh.PublishWithDetails cid YourPublicKey 180000000000000 1000 true w.node).2
          (Event.PublishWithDetails cid YourPublicKey 180000000000000 1000 true
            (sh.PublishWithDetails cid YourPublicKey 180000000000000 1000 true w.node).1)) := by
  have hl : (50 * Hour : Duration) = 180000000000000 := by decide
  have ht : (1 * Microsecond : Duration) = 1000 := by decide
  unfold addToIPNS Shell.callPublishWithDetails
  simp only [hl, ht]
  cases (sh.PublishWithDetails cid YourPublicKey 180000000000000 1000 true w.node).1 <;> rfl

/-! ## Claims -/

/-- C2. If the add operation fails with `e` during a run, the run prints the
error as its last line and its transcript holds the add call only: there is no
call to read, download, publish or resolve. -/
theorem add_failure_stops_run {σ : Type} (sh : Shell σ) (chk : Checks σ) (sep : List String)
    (s : σ) (text : String) (e : GoError)
    (h : Event.Add text (Except.error e) ∈ (run sh chk sep s).log) :
    (run sh chk sep s).console.getLast? = some ("Error adding file to IPFS: " ++ e.Error) ∧
    (run sh chk sep s).log = [Event.Add "Hello from Launchpad!" (Except.error e)] ∧
    ∀ ev ∈ (run sh chk sep s).log,
      ev.op ≠ Op.read ∧ ev.op ≠ Op.download ∧ ev.op ≠ Op.publish ∧ ev.op ≠ Op.resolve := by
  have hs := (run_shape sh chk sep s).2
  unfold RunShape at hs
  rcases hs with ⟨e0, _, hl, hc⟩ | ⟨e1, _, hl, hc⟩ | ⟨cid, rc, e1, pre, _, _, hl, hc⟩ |
    ⟨cid, rd, t, e1, _, _, hl, hc⟩ | ⟨cid, rd, t, e1, _, _, hl, hc⟩ |
    ⟨cid, rd, t, pr, e1, _, _, hl, hc⟩ | ⟨cid, rd, t, pr, r, _, _, hl, hc⟩ <;>
  rw [hl] at h ⊢ <;> rw [hc] <;> simp at h
  obtain ⟨_, rfl⟩ := h
  simp [Sprintln, Event.op]

/-- Witness of C2. -/
theorem add_failure_stops_run_witness :
    Event.Add "Hello from Launchpad!" (Except.error ⟨ErrKind.TransportError, "connection refused"⟩) ∈
      (run (mockShellAddDown ⟨ErrKind.TransportError, "connection refused"⟩)
        passingChecks [] emptyNode).log ∧
    (run (mockShellAddDown ⟨ErrKind.TransportError, "connection refused"⟩)
        passingChecks [] emptyNode).console.getLast? =
      some "Error adding file to IPFS: connection refused" :=
  ⟨List.mem_singleton.mpr rfl,
   (add_failure_stops_run (mockShellAddDown ⟨ErrKind.TransportError, "connection refused"⟩)
      passingChecks [] emptyNode "Hello from Launchpad!"
      ⟨ErrKind.TransportError, "connection refused"⟩ (List.mem_singleton.mpr rfl)).1⟩


/-- C3, claim as stated, refuted: in a run whose pre-flight check fails no
client operation is invoked at all, although every operation of the client
would succeed; the transcript is empty, so it neither starts with add nor ends
at a failed operation nor is the whole pipeline. -/
theorem failed_checks_run_invokes_nothing :
    (run mockShell failingChecks [] emptyNode).log = [] ∧
    ¬ StopsAtFirstFailure (run mockShell failingChecks [] emptyNode).log := by
  have hl : (run mockShell failingChecks [] emptyNode).log = [] := rfl
  refine ⟨hl, ?_⟩
  rw [hl]
  intro h
  exact absurd h.1 (by simp)

/-- C3, amended. In a run whose pre-flight check `performChecks` passes, the
client operations invoked are exactly the pipeline add, read, download,
publish, resolve cut at the first operation that fails (the whole pipeline
when none fails): add comes first, the order is the pipeline order, nothing is
invoked after a failure or twice.  In a run whose pre-flight check fails, no
operation is invoked. -/
theorem run_stops_at_first_failure {σ : Type} (sh : Shell σ) (chk : Checks σ)
    (sep : List String) (s : σ) :
    (chk.result s = none → StopsAtFirstFailure (run sh chk sep s).log) ∧
    (∀ e, chk.result s = some e → (run sh chk sep s).log = []) := by
  have hs := (run_shape sh chk sep s).2
  unfold RunShape at hs
  rcases hs with ⟨e0, h0, hl, hc⟩ | ⟨e1, h0, hl, hc⟩ | ⟨cid, rc, e1, pre, h0, hf, hl, hc⟩ |
    ⟨cid, rd, t, e1, h0, hr, hl, hc⟩ | ⟨cid, rd, t, e1, h0, hr, hl, hc⟩ |
    ⟨cid, rd, t, pr, e1, h0, hr, hl, hc⟩ | ⟨cid, rd, t, pr, r, h0, hr, hl, hc⟩ <;>
  rw [hl, h0] <;> unfold StopsAtFirstFailure <;>
  simp [Event.op, failure_Add_error, failure_Add_ok, failure_Cat_error, failure_Cat_ok, failure_Get,
    failure_Publish_error, failure_Publish_ok, failure_Resolve_error, failure_Resolve_ok,
    pipeline, *]

/-- Witness of C3: a complete run against the in-memory client. -/
theorem run_stops_at_first_failure_witness :
    passingChecks.result emptyNode = none ∧
    StopsAtFirstFailure (run mockShell passingChecks [] emptyNode).log :=
  ⟨rfl, (run_stops_at_first_failure mockShell passingChecks [] emptyNode).1 rfl⟩


/-- C4, claim as stated, refuted: `main` tests only the error of the add
call, so when the client answers the add with the empty cid and no error, the
run goes on and calls `PublishWithDetails` with the empty string. -/
theorem publish_called_with_empty_cid :
    (mockShellEmptyCid.Add "Hello from Launchpad!" emptyNode).1 = Except.ok "" ∧
    Event.PublishWithDetails "" "" 180000000000000 1000 true (Except.ok ⟨"", ""⟩) ∈
      (run mockShellEmptyCid passingChecks [] emptyNode).log ∧
    ¬ PublishesAddedNonEmptyCid (run mockShellEmptyCid passingChecks [] emptyNode).log := by
  have hl : (run mockShellEmptyCid passingChecks [] emptyNode).log =
      [Event.Add "Hello from Launchpad!" (Except.ok ""),
       Event.Cat "/ipfs/" (Except.ok ⟨Except.ok "Hello from Launchpad!"⟩),
       Event.Get "" "~/Downloads" none,
       Event.PublishWithDetails "" "" 180000000000000 1000 true (Except.ok ⟨"", ""⟩),
       Event.Resolve "" (Except.ok "")] := rfl
  have hmem : Event.PublishWithDetails "" "" 180000000000000 1000 true (Except.ok ⟨"", ""⟩) ∈
      (run mockShellEmptyCid passingChecks [] emptyNode).log := by
    rw [hl]; simp
  refine ⟨rfl, hmem, ?_⟩
  intro hp
  exact (hp "" "" 180000000000000 1000 true (Except.ok ⟨"", ""⟩) hmem).2 rfl

/-- C4, amended. Whenever a run reaches the publish step, the transcript starts
with a successful add call, the client answered that add call with a cid, and
the content hash passed to `PublishWithDetails` is exactly that cid, never
another value; it is the empty string only when the add call itself returned
the empty string. -/
theorem publish_uses_added_cid {σ : Type} (sh : Shell σ) (chk : Checks σ) (sep : List String)
    (s : σ) (contentHash key : String) (lifetime ttl : Duration) (resolve : Bool)
    (res : Except GoError PublishResponse)
    (h : Event.PublishWithDetails contentHash key lifetime ttl resolve res ∈
      (run sh chk sep s).log) :
    (run sh chk sep s).log.head? =
        some (Event.Add "Hello from Launchpad!" (Except.ok contentHash)) ∧
    (sh.Add "Hello from Launchpad!" (chk.node s)).1 = Except.ok contentHash ∧
    (contentHash = "" →
      (sh.Add "Hello from Launchpad!" (chk.node s)).1 = Except.ok "") := by
  have hhead : (run sh chk sep s).log.head? =
      some (Event.Add "Hello from Launchpad!" (Except.ok contentHash)) := by
    have hs := (run_shape sh chk sep s).2
    unfold RunShape at hs
    rcases hs with ⟨e0, h0, hl, hc⟩ | ⟨e1, h0, hl, hc⟩ | ⟨cid, rc, e1, pre, h0, hf, hl, hc⟩ |
      ⟨cid, rd, t, e1, h0, hr, hl, hc⟩ | ⟨cid, rd, t, e1, h0, hr, hl, hc⟩ |
      ⟨cid, rd, t, pr, e1, h0, hr, hl, hc⟩ | ⟨cid, rd, t, pr, r, h0, hr, hl, hc⟩ <;>
    rw [hl] at h ⊢ <;> simp at h <;> simp [h.1]
  have hadd := (run_head_answer sh chk sep s _ _ hhead).2
  refine ⟨hhead, hadd, ?_⟩
  intro hempty
  rw [← hempty]
  exact hadd

/-- Witness of C4: the complete run against the in-memory client publishes the
cid that its add call returned. -/
theorem publish_uses_added_cid_witness :
    Event.PublishWithDetails "bafy-Hello from Launchpad!" "" 180000000000000 1000 true
        (Except.ok ⟨"", "bafy-Hello from Launchpad!"⟩) ∈
      (run mockShell passingChecks [] emptyNode).log ∧
    (run mockShell passingChecks [] emptyNode).log.head? =
      some (Event.Add "Hello from Launchpad!" (Except.ok "bafy-Hello from Launchpad!")) ∧
    (mockShell.Add "Hello from Launchpad!" (passingChecks.node emptyNode)).1 =
      Except.ok "bafy-Hello from Launchpad!" :=
  have hw := publish_uses_added_cid mockShell passingChecks [] emptyNode
    "bafy-Hello from Launchpad!" "" 180000000000000 1000 true
    (Except.ok ⟨"", "bafy-Hello from Launchpad!"⟩) (by rw [mockRun_log]; simp)
  ⟨by rw [mockRun_log]; simp, hw.1, hw.2.1⟩


/-- C8, claim as stated, refuted: in a run whose pre-flight check fails, no
step of the pipeline fails (none is started), yet the console shows no
progress line. -/
theorem failed_checks_run_prints_no_progress :
    (∀ ev ∈ (run mockShell failingChecks [] emptyNode).log, ev.failure = none) ∧
    (run mockShell failingChecks [] emptyNode).console = ["pre-flight check failed"] ∧
    ¬ ProgressForAllSteps (run mockShell failingChecks [] emptyNode).console := by
  have hl : (run mockShell failingChecks [] emptyNode).log = [] := rfl
  have hc : (run mockShell failingChecks [] emptyNode).console = ["pre-flight check failed"] :=
    rfl
  refine ⟨by simp [hl], hc, ?_⟩
  rw [hc]
  unfold ProgressForAllSteps
  decide


/-- C8, amended. For every operation of a run that fails with an error `e`,
the last line on the console ends with the message of `e`, nothing is printed
after it, and the progress line of that operation was printed before it.  In
a run whose pre-flight check `performChecks` passes and in which no operation
fails, the console shows the progress lines of the five operations in pipeline
order. -/
theorem console_reports_progress_and_error {σ : Type} (sh : Shell σ) (chk : Checks σ)
    (sep : List String) (s : σ) :
    (∀ ev ∈ (run sh chk sep s).log, ∀ e, ev.failure = some e →
      ∃ before pre, (run sh chk sep s).console = before ++ [pre ++ e.Error] ∧
        progressLine ev.op ∈ before) ∧
    (chk.result s = none → (∀ ev ∈ (run sh chk sep s).log, ev.failure = none) →
      ProgressForAllSteps (run sh chk sep s).console) := by
  have hs := (run_shape sh chk sep s).2
  unfold RunShape at hs
  rcases hs with ⟨e0, h0, hl, hc⟩ | ⟨e1, h0, hl, hc⟩ | ⟨cid, rc, e1, pre, h0, hf, hl, hc⟩ |
    ⟨cid, rd, t, e1, h0, hr, hl, hc⟩ | ⟨cid, rd, t, e1, h0, hr, hl, hc⟩ |
    ⟨cid, rd, t, pr, e1, h0, hr, hl, hc⟩ | ⟨cid, rd, t, pr, r, h0, hr, hl, hc⟩
  · rw [hl, h0]; simp
  · rw [hl]
    refine ⟨?_, ?_⟩
    · intro ev hev e hfe
      simp only [List.mem_singleton] at hev
      subst hev
      obtain rfl : e1 = e := by simpa [failure_Add_error] using hfe
      exact ends_with_error _ _ _ _ _ hc
    · intro _ hall
      simp [failure_Add_error] at hall
  · rw [hl]
    refine ⟨?_, ?_⟩
    · intro ev hev e hfe
      simp only [List.mem_cons, List.mem_singleton, List.not_mem_nil, or_false] at hev
      rcases hev with rfl | rfl
      · simp [failure_Add_ok] at hfe
      · obtain rfl : e1 = e := by simpa [hf] using hfe
        exact ends_with_wrapped_error _ _ _ _ _ _ hc
    · intro _ hall
      simp [hf] at hall
  · rw [hl]
    refine ⟨?_, ?_⟩
    · intro ev hev e hfe
      simp only [List.mem_cons, List.mem_singleton, List.not_mem_nil, or_false] at hev
      rcases hev with rfl | rfl | rfl
      · simp [failure_Add_ok] at hfe
      · simp [failure_Cat_ok, hr] at hfe
      · obtain rfl : e1 = e := by simpa [failure_Get] using hfe
        exact ends_with_error _ _ _ _ _ hc
    · intro _ hall
      simp [failure_Get] at hall
  · rw [hl]
    refine ⟨?_, ?_⟩
    · intro ev hev e hfe
      simp only [List.mem_cons, List.mem_singleton, List.not_mem_nil, or_false] at hev
      rcases hev with rfl | rfl | rfl | rfl
      · simp [failure_Add_ok] at hfe
      · simp [failure_Cat_ok, hr] at hfe
      · simp [failure_Get] at hfe
      · obtain rfl : e1 = e := by simpa [failure_Publish_error] using hfe
        exact ends_with_error _ _ _ _ _ hc
    · intro _ hall
      simp [failure_Publish_error] at hall
  · rw [hl]
    refine ⟨?_, ?_⟩
    · intro ev hev e hfe
      simp only [List.mem_cons, List.mem_singleton, List.not_mem_nil, or_false] at hev
      rcases hev with rfl | rfl | rfl | rfl | rfl
      · simp [failure_Add_ok] at hfe
      · simp [failure_Cat_ok, hr] at hfe
      · simp [failure_Get] at hfe
      · simp [failure_Publish_ok] at hfe
      · obtain rfl : e1 = e := by simpa [failure_Resolve_error] using hfe
        exact ends_with_error _ _ _ _ _ hc
    · intro _ hall
      simp [failure_Resolve_error] at hall
  · rw [hl, hc]
    refine ⟨?_, ?_⟩
    · intro ev hev e hfe
      simp only [List.mem_cons, List.mem_singleton, List.not_mem_nil, or_false] at hev
      rcases hev with rfl | rfl | rfl | rfl | rfl
      · simp [failure_Add_ok] at hfe
      · simp [failure_Cat_ok, hr] at hfe
      · simp [failure_Get] at hfe
      · simp [failure_Publish_ok] at hfe
      · simp [failure_Resolve_ok] at hfe
    · intro _ _
      exact progress_sublist _ _ _ _ _

/-- Witness of C8: the complete run against the in-memory client shows the five
progress lines in order. -/
theorem console_reports_progress_and_error_witness :
    passingChecks.result emptyNode = none ∧
    (∀ ev ∈ (run mockShell passingChecks ["-----"] emptyNode).log, ev.failure = none) ∧
    ProgressForAllSteps (run mockShell passingChecks ["-----"] emptyNode).console :=
  have hall : ∀ ev ∈ (run mockShell passingChecks ["-----"] emptyNode).log, ev.failure = none := by
    intro ev hev
    have hl : (run mockShell passingChecks ["-----"] emptyNode).log =
        (run mockShell passingChecks [] emptyNode).log := rfl
    rw [hl, mockRun_log] at hev
    simp only [List.mem_cons, List.mem_singleton, List.not_mem_nil, or_false] at hev
    rcases hev with rfl | rfl | rfl | rfl | rfl <;> rfl
  ⟨rfl, hall,
   (console_reports_progress_and_error mockShell passingChecks ["-----"] emptyNode).2 rfl hall⟩


/-- C9. In every run whose add call returned a cid, that cid is what the later
steps receive, and they pass it on to the client.  The client answered the add
with that cid; the second transcript entry is the call `Cat` of
`"/ipfs/" ++ cid` with the answer the client gave in the node state left by the
add; when that read succeeded the third entry is the call `Get` of that cid and
the constant `YourLocalPath` with the answer the client gave in the node state
left by the `Cat`.  Every `Cat` call of the run has that path and every `Get`
call has that cid and `YourLocalPath`.  `readFile` and `downloadFile` are that
one client call each: they record the client's own answer, leave the node in
the state the client returned, and `downloadFile` returns the client's error. -/
theorem cid_threaded_to_read_and_download {σ : Type} (sh : Shell σ) (chk : Checks σ)
    (sep : List String) (s : σ) (text cid : String)
    (h : (run sh chk sep s).log.head? = some (Event.Add text (Except.ok cid))) :
    (sh.Add "Hello from Launchpad!" (chk.node s)).1 = Except.ok cid ∧
    (run sh chk sep s).log[1]? = some (Event.Cat ("/ipfs/" ++ cid)
      (sh.Cat ("/ipfs/" ++ cid) (sh.Add "Hello from Launchpad!" (chk.node s)).2).1) ∧
    (Event.failure (Event.Cat ("/ipfs/" ++ cid)
        (sh.Cat ("/ipfs/" ++ cid) (sh.Add "Hello from Launchpad!" (chk.node s)).2).1) = none →
      (run sh chk sep s).log[2]? = some (Event.Get cid "~/Downloads"
        (sh.Get cid "~/Downloads"
          (sh.Cat ("/ipfs/" ++ cid) (sh.Add "Hello from Launchpad!" (chk.node s)).2).2).1)) ∧
    (∀ path rc, Event.Cat path rc ∈ (run sh chk sep s).log → path = "/ipfs/" ++ cid) ∧
    (∀ hash outdir r, Event.Get hash outdir r ∈ (run sh chk sep s).log →
      hash = cid ∧ outdir = YourLocalPath) ∧
    (∀ w : World σ, (readFile sh cid w).2 =
      w.record (sh.Cat ("/ipfs/" ++ cid) w.node).2
        (Event.Cat ("/ipfs/" ++ cid) (sh.Cat ("/ipfs/" ++ cid) w.node).1)) ∧
    (∀ w : World σ, downloadFile sh cid w =
      ((sh.Get cid "~/Downloads" w.node).1,
        w.record (sh.Get cid "~/Downloads" w.node).2
          (Event.Get cid "~/Downloads" (sh.Get cid "~/Downloads" w.node).1))) := by
  obtain ⟨hchk, hadd⟩ := run_head_answer sh chk sep s text cid h
  obtain ⟨_, hcat, hget⟩ := run_answers sh chk sep s hchk cid hadd
  refine ⟨hadd, hcat, ?_, ?_, ?_, ?_, fun w => rfl⟩
  · intro hok
    cases hrc : (sh.Cat ("/ipfs/" ++ cid) (sh.Add "Hello from Launchpad!" (chk.node s)).2).1 with
    | error e => rw [hrc, failure_Cat_error] at hok; cases hok
    | ok reader =>
      rw [hrc, failure_Cat_ok] at hok
      cases hr : ReadAll reader with
      | error e => rw [hr] at hok; cases hok
      | ok bytes => exact (hget reader bytes hrc hr).1
  · have hs := (run_shape sh chk sep s).2
    unfold RunShape at hs
    rcases hs with ⟨e0, h0, hl, hc⟩ | ⟨e1, h0, hl, hc⟩ | ⟨cid1, rc, e1, pre, h0, hf, hl, hc⟩ |
      ⟨cid1, rd, t, e1, h0, hr, hl, hc⟩ | ⟨cid1, rd, t, e1, h0, hr, hl, hc⟩ |
      ⟨cid1, rd, t, pr, e1, h0, hr, hl, hc⟩ | ⟨cid1, rd, t, pr, r, h0, hr, hl, hc⟩ <;>
    rw [hl] at h ⊢ <;> simp at h
    all_goals obtain ⟨rfl, rfl⟩ := h
    all_goals simp
  · have hs := (run_shape sh chk sep s).2
    unfold RunShape at hs
    rcases hs with ⟨e0, h0, hl, hc⟩ | ⟨e1, h0, hl, hc⟩ | ⟨cid1, rc, e1, pre, h0, hf, hl, hc⟩ |
      ⟨cid1, rd, t, e1, h0, hr, hl, hc⟩ | ⟨cid1, rd, t, e1, h0, hr, hl, hc⟩ |
      ⟨cid1, rd, t, pr, e1, h0, hr, hl, hc⟩ | ⟨cid1, rd, t, pr, r, h0, hr, hl, hc⟩ <;>
    rw [hl] at h ⊢ <;> simp at h
    all_goals obtain ⟨rfl, rfl⟩ := h
    all_goals simp
    all_goals intro hash outdir r h1 h2 _
    all_goals exact ⟨h1, h2⟩
  · intro w
    unfold readFile Shell.callCat SprintfIpfs
    cases (sh.Cat ("/ipfs/" ++ cid) w.node).1 with
    | error e => rfl
    | ok reader =>
      cases hr : ReadAll reader with
      | error e => simp [hr]
      | ok b => simp [hr]

/-- Witness of C9: a run against the in-memory client with a failing download
endpoint; the third transcript entry carries the error the client gave. -/
theorem cid_threaded_to_read_and_download_witness :
    (run (mockShellGetDown ⟨ErrKind.FilesystemError, "permission denied"⟩) passingChecks []
        emptyNode).log.head? =
      some (Event.Add "Hello from Launchpad!" (Except.ok "bafy-Hello from Launchpad!")) ∧
    (run (mockShellGetDown ⟨ErrKind.FilesystemError, "permission denied"⟩) passingChecks []
        emptyNode).log[2]? =
      some (Event.Get "bafy-Hello from Launchpad!" "~/Downloads"
        (some ⟨ErrKind.FilesystemError, "permission denied"⟩)) :=
  ⟨rfl, (cid_threaded_to_read_and_download
    (mockShellGetDown ⟨ErrKind.FilesystemError, "permission denied"⟩) passingChecks [] emptyNode
    "Hello from Launchpad!" "bafy-Hello from Launchpad!" rfl).2.2.1 rfl⟩

/-- C10. `readFile` returns exactly one of a text and an error: the text
pointer is nil if and only if the error is non-nil.  Hence no run of `main`
dereferences a nil text pointer. -/
theorem readFile_text_nil_iff_error {σ : Type} (sh : Shell σ) (cid : String) (w : World σ)
    (chk : Checks σ) (sep : List String) (s : σ) :
    ((readFile sh cid w).1.1 = none ↔ (readFile sh cid w).1.2 ≠ none) ∧
    (run sh chk sep s).nilDeref = false := by
  refine ⟨?_, (run_shape sh chk sep s).1⟩
  unfold readFile Shell.callCat
  cases (sh.Cat (SprintfIpfs cid) w.node).1 with
  | error e => simp
  | ok reader =>
    cases hr : ReadAll reader with
    | error e => simp [hr]
    | ok b => simp [hr]


/-- C1. Round trip: against a client that stores content by identity,
`addFile` of any text succeeds with some cid, and `readFile` of that cid right
afterwards succeeds with exactly the original text. -/
theorem addFile_readFile_roundtrip {σ : Type} (sh : Shell σ) (hsh : StoresByIdentity sh)
    (text : String) (w : World σ) :
    ∃ cid, (addFile sh text w).1 = Except.ok cid ∧
      (readFile sh cid (addFile sh text w).2).1 = (some text, none) := by
  obtain ⟨cid, reader, hadd, hcat, hread⟩ := hsh text w.node
  refine ⟨cid, hadd, ?_⟩
  have hnode : (addFile sh text w).2.node = (sh.Add text w.node).2 := rfl
  unfold readFile Shell.callCat
  simp only [hnode, SprintfIpfs, hcat, hread]

/-- Witness of C1: the in-memory client stores by identity, and the text of the
script survives the round trip. -/
theorem addFile_readFile_roundtrip_witness :
    StoresByIdentity mockShell ∧
    ∃ cid, (addFile mockShell "Hello from Launchpad!" (World.init emptyNode)).1 = Except.ok cid ∧
      (readFile mockShell cid
        (addFile mockShell "Hello from Launchpad!" (World.init emptyNode)).2).1 =
        (some "Hello from Launchpad!", none) :=
  ⟨mockShell_storesByIdentity,
   addFile_readFile_roundtrip mockShell mockShell_storesByIdentity "Hello from Launchpad!"
     (World.init emptyNode)⟩

/-- C5. Against a client that keeps, per key, the last published cid and
returns it on resolve: after `addToIPNS` of a cid succeeds, `resolveIPNS`
succeeds and returns exactly that cid. -/
theorem resolveIPNS_after_addToIPNS {σ : Type} (sh : Shell σ) (hsh : StoresLastPublished sh)
    (cid : String) (w : World σ) (hpub : (addToIPNS sh cid w).1 = none) :
    (resolveIPNS sh (addToIPNS sh cid w).2).1 = Except.ok cid := by
  rw [addToIPNS_eq] at hpub ⊢
  unfold resolveIPNS Shell.callResolve
  cases hp : (sh.PublishWithDetails cid YourPublicKey 180000000000000 1000 true w.node).1 with
  | error e => simp [hp, failure_Publish_error] at hpub
  | ok pr => exact hsh cid YourPublicKey 180000000000000 1000 true w.node pr hp

/-- Witness of C5: publish then resolve against the in-memory client. -/
theorem resolveIPNS_after_addToIPNS_witness :
    StoresLastPublished mockShell ∧
    (addToIPNS mockShell "bafy-test-1" (World.init emptyNode)).1 = none ∧
    (resolveIPNS mockShell (addToIPNS mockShell "bafy-test-1" (World.init emptyNode)).2).1 =
      Except.ok "bafy-test-1" :=
  ⟨mockShell_storesLastPublished, rfl,
   resolveIPNS_after_addToIPNS mockShell mockShell_storesLastPublished "bafy-test-1"
     (World.init emptyNode) rfl⟩

/-- C6. `addToIPNS` makes exactly one client call, `PublishWithDetails` with the
given cid, the constant `YourPublicKey`, a lifetime of 50 hours
(180000000000000 ns), a cache TTL of 1 microsecond (1000 ns, positive and
below the lifetime) and `true`; it returns the error of that call, or nil when
the call succeeded. -/
theorem addToIPNS_publish_call {σ : Type} (sh : Shell σ) (cid : String) (w : World σ) :
    (addToIPNS sh cid w).2.log = w.log ++
      [Event.PublishWithDetails cid YourPublicKey 180000000000000 1000 true
        (sh.PublishWithDetails cid YourPublicKey 180000000000000 1000 true w.node).1] ∧
    (addToIPNS sh cid w).1 =
      (Event.PublishWithDetails cid YourPublicKey 180000000000000 1000 true
        (sh.PublishWithDetails cid YourPublicKey 180000000000000 1000 true w.node).1).failure ∧
    (50 * Hour : Duration) = 180000000000000 ∧ (1 * Microsecond : Duration) = 1000 ∧
    (0 : Duration) < 1 * Microsecond ∧ (1 * Microsecond : Duration) < 50 * Hour ∧
    (50 * Hour : Duration) < 2 ^ 63 := by
  rw [addToIPNS_eq]
  exact ⟨rfl, rfl, by decide, by decide, by decide, by decide, by decide⟩


/-- C7, claim as stated, refuted: the in-memory client fails the fetch of an
unknown cid with a `NotFoundError` whose text is `not found`; `readFile` does
not return that error but a new `fmt.Errorf` value with another text. -/
theorem readFile_does_not_return_client_error :
    (mockShell.Cat "/ipfs/missing" emptyNode).1 =
      Except.error ⟨ErrKind.NotFoundError, "not found"⟩ ∧
    (readFile mockShell "missing" (World.init emptyNode)).1 =
      (none, some ⟨ErrKind.fmtError, "error reading the file: not found"⟩) ∧
    (readFile mockShell "missing" (World.init emptyNode)).1.2 ≠
      some ⟨ErrKind.NotFoundError, "not found"⟩ := by
  refine ⟨rfl, rfl, ?_⟩
  have h : (readFile mockShell "missing" (World.init emptyNode)).1.2 =
      some ⟨ErrKind.fmtError, "error reading the file: not found"⟩ := rfl
  rw [h]
  decide

/-- C7, amended. `readFile` fails if and only if the fetch `Cat` fails or
reading the returned stream fails.  The error it returns is a new
`fmt.Errorf` value: its text is `error reading the file: ` followed by the text
of the error of `Cat`, or `error reading the bytes: ` followed by the text of
the error of the stream; the kind of the client error is not kept. -/
theorem readFile_fails_iff {σ : Type} (sh : Shell σ) (cid : String) (w : World σ) :
    ((readFile sh cid w).1.2 ≠ none ↔
      ((∃ e, (sh.Cat ("/ipfs/" ++ cid) w.node).1 = Except.error e) ∨
       (∃ reader e, (sh.Cat ("/ipfs/" ++ cid) w.node).1 = Except.ok reader ∧
          ReadAll reader = Except.error e))) ∧
    (∀ e, (sh.Cat ("/ipfs/" ++ cid) w.node).1 = Except.error e →
      (readFile sh cid w).1.2 =
        some ⟨ErrKind.fmtError, "error reading the file: " ++ e.Error⟩) ∧
    (∀ reader e, (sh.Cat ("/ipfs/" ++ cid) w.node).1 = Except.ok reader →
      ReadAll reader = Except.error e →
      (readFile sh cid w).1.2 =
        some ⟨ErrKind.fmtError, "error reading the bytes: " ++ e.Error⟩) := by
  unfold readFile Shell.callCat
  simp only [SprintfIpfs]
  cases (sh.Cat ("/ipfs/" ++ cid) w.node).1 with
  | error e => simp [Errorf]
  | ok reader =>
    cases hr : ReadAll reader with
    | error e =>
      simp only [hr, Errorf]
      refine ⟨by simp [hr], by simp, ?_⟩
      intro r1 e1 h1 h2
      cases h1
      rw [hr] at h2
      cases h2
      rfl
    | ok b =>
      simp only [hr]
      refine ⟨by simp [hr], by simp, ?_⟩
      intro r1 e1 h1 h2
      cases h1
      rw [hr] at h2
      cases h2

/-- Witness of C7, amended: a stream that breaks with `unexpected EOF`. -/
theorem readFile_fails_iff_witness :
    (readFile (mockShellBrokenStream ⟨ErrKind.TransportError, "unexpected EOF"⟩) "bafy-test-1"
        (World.init emptyNode)).1.2 =
      some ⟨ErrKind.fmtError, "error reading the bytes: unexpected EOF"⟩ :=
  (readFile_fails_iff (mockShellBrokenStream ⟨ErrKind.TransportError, "unexpected EOF"⟩)
    "bafy-test-1" (World.init emptyNode)).2.2 ⟨Except.error ⟨ErrKind.TransportError, "unexpected EOF"⟩⟩
    ⟨ErrKind.TransportError, "unexpected EOF"⟩ rfl rfl

end IpfsApi
